import Mathlib

/-!
Shallow embedding of the child-process supervision core of `oh-my-pi`
(`crates/brush-core-vendored`): the signal classification stub layer
(`src/sys/stubs/signal.rs`) and the child-process supervisor
(`src/processes.rs`), together with theorems settling the specification
claims about them.
-/

namespace BrushCore

/-- Model of `std::io::Error` values crossing the boundary: only identity
matters to this layer, which passes them through unchanged. -/
structure IoError where
  code : Nat
deriving DecidableEq, Repr

/-- Model of `std::process::ExitStatus`: an opaque exit status; only
identity matters to this layer. -/
structure ExitStatus where
  code : Nat
deriving DecidableEq, Repr

/-- Model of `std::process::Output`: status plus captured byte buffers. -/
structure Output where
  status : ExitStatus
  stdout : List Nat
  stderr : List Nat
deriving DecidableEq, Repr

/-- The error taxonomy surfaced by this core (`error::ErrorKind` variants
used in the embedded sources, plus passthrough OS errors wrapped by
`From<io::Error>`). -/
inductive Error where
  | invalidSignal (raw : String)
  | notSupportedOnThisPlatform (op : String)
  | failedToSendSignal
  | os (e : IoError)
deriving DecidableEq, Repr

/-- A one-shot future at the granularity this layer observes: either never
becomes ready, or is ready with a value. `futures::future::pending()` and
`std::future::pending()` are `never`. -/
inductive Future (α : Type) where
  | never
  | ready (a : α)

/-- Sequencing of the future model: awaiting a never-ready future and then
continuing never becomes ready. -/
def Future.bind {α β : Type} : Future α → (α → Future β) → Future β
  | .never, _ => .never
  | .ready a, f => f a

/-- Whether the future can ever become ready. -/
def Future.resolves {α : Type} : Future α → Bool
  | .never => false
  | .ready _ => true

/-- `futures::future::pending::<α>()` / `std::future::pending()`: a future
that never resolves. -/
def future_pending (α : Type) : Future α := Future.never

/-! ## Signal stub layer, Windows configuration (`#[cfg(windows)]`) -/

namespace WinStub

/-- Minimal signal representation for Windows (`sys/stubs/signal.rs`). -/
inductive Signal where
  | terminate
  | kill
  | interrupt
deriving DecidableEq, Repr

/-- `Signal::iterator()`: yields every member of the Windows stub set. -/
def Signal.iterator : List Signal := [.terminate, .kill, .interrupt]

/-- `Signal::as_str`: canonical short name of each signal. -/
def Signal.as_str : Signal → String
  | .terminate => "TERM"
  | .kill => "KILL"
  | .interrupt => "INT"

/-- `str::to_ascii_uppercase`: uppercases ASCII letters only, which is
exactly what `Char.toUpper` does, applied characterwise. -/
def toAsciiUppercase (s : String) : String := ⟨s.data.map Char.toUpper⟩

/-- `Signal::from_str` on the Windows configuration: matches the
ASCII-uppercased input against canonical names with and without the SIG
prefix; otherwise `InvalidSignal` carrying the original string. -/
def Signal.from_str (s : String) : Except Error Signal :=
  let u := toAsciiUppercase s
  if u = "TERM" ∨ u = "SIGTERM" then .ok .terminate
  else if u = "KILL" ∨ u = "SIGKILL" then .ok .kill
  else if u = "INT" ∨ u = "SIGINT" then .ok .interrupt
  else .error (.invalidSignal s)

/-- `TryFrom<i32> for Signal`: the stub implementation (shared by both
configurations) always fails with `InvalidSignal(format!("{value}"))`. -/
def Signal.try_from (value : Int) : Except Error Signal :=
  .error (.invalidSignal (toString value))

end WinStub

/-! ## Signal stub layer, non-Windows configuration (`#[cfg(not(windows))]`) -/

namespace PosixStub

/-- The stub `Signal` enum on non-Windows unsupported platforms: empty. -/
inductive Signal where
deriving DecidableEq

/-- `Signal::iterator()` on the empty configuration: yields nothing. -/
def Signal.iterator : List Signal := []

/-- `Signal::as_str` on the empty configuration: unreachable, returns "". -/
def Signal.as_str (_ : Signal) : String := ""

/-- `Signal::from_str` on the empty configuration: always
`InvalidSignal` carrying the original string. -/
def Signal.from_str (s : String) : Except Error Signal :=
  .error (.invalidSignal s)

/-- `TryFrom<i32> for Signal`: always fails with
`InvalidSignal(format!("{value}"))`. -/
def Signal.try_from (value : Int) : Except Error Signal :=
  .error (.invalidSignal (toString value))

end PosixStub

/-! ## `kill_process` (signal delivery) -/

/-- Modelled from the spec: `traps::TrapSignal` (its defining module is not
among the supplied sources) — the trap-signal argument of `kill_process`,
wrapping a named signal of the classification layer's Windows set. -/
inductive TrapSignal where
  | signal (s : WinStub.Signal)
deriving DecidableEq, Repr

/-- The Windows process API surface that `kill_process` touches:
whether `OpenProcess(PROCESS_TERMINATE, 0, pid)` yields a non-null handle,
and whether `TerminateProcess(handle, 1)` succeeds for that pid. -/
structure WinOs where
  openProcess : Nat → Bool
  terminateProcess : Nat → Bool

/-- `kill_process` on the Windows configuration: opens the process for
termination (failure: `FailedToSendSignal`), calls `TerminateProcess`
(failure: `FailedToSendSignal`), otherwise succeeds. The `_signal`
argument is unused by the source. -/
def kill_process_windows (os : WinOs) (pid : Nat) (_signal : TrapSignal) :
    Except Error Unit :=
  if os.openProcess pid then
    if os.terminateProcess pid then .ok () else .error .failedToSendSignal
  else .error .failedToSendSignal

/-- `kill_process` on the non-Windows configuration: always
`NotSupportedOnThisPlatform("killing process")`. -/
def kill_process_nonwindows (_pid : Nat) (_signal : TrapSignal) :
    Except Error Unit :=
  .error (.notSupportedOnThisPlatform "killing process")

/-! ## Degraded-platform signal listeners -/

/-- `FakeSignal`: the stand-in listener handle on degraded platforms. -/
structure FakeSignal where
deriving DecidableEq, Repr

/-- `FakeSignal::new()`. -/
def FakeSignal.new : FakeSignal := ⟨⟩

/-- `FakeSignal::recv`: awaits `futures::future::pending::<()>()`, hence
never resolves. -/
def FakeSignal.recv (_ : FakeSignal) : Future Unit := future_pending Unit

/-- `tstp_signal_listener()`: always succeeds with a fresh `FakeSignal`. -/
def tstp_signal_listener : Except Error FakeSignal := .ok FakeSignal.new

/-- `chld_signal_listener()`: always succeeds with a fresh `FakeSignal`. -/
def chld_signal_listener : Except Error FakeSignal := .ok FakeSignal.new

/-- `await_ctrl_c()`: awaits `FakeSignal::new().recv()` and then returns
`Ok(())`; since the inner future never resolves, neither does this one. -/
def await_ctrl_c : Future (Except IoError Unit) :=
  Future.bind (FakeSignal.new.recv) (fun _ => .ready (.ok ()))

/-- `poll_for_stopped_children()`: the stub always reports `Ok(false)`. -/
def poll_for_stopped_children : Except Error Bool := .ok false

/-! ## Child process supervisor (`processes.rs`) -/

instance {ε α : Type} [DecidableEq ε] [DecidableEq α] :
    DecidableEq (Except ε α) := fun a b =>
  match a, b with
  | .error x, .error y =>
      if h : x = y then isTrue (by rw [h])
      else isFalse (by intro he; injection he; contradiction)
  | .error _, .ok _ => isFalse (fun he => Except.noConfusion he)
  | .ok _, .error _ => isFalse (fun he => Except.noConfusion he)
  | .ok x, .ok y =>
      if h : x = y then isTrue (by rw [h])
      else isFalse (by intro he; injection he; contradiction)

/-- The external child-process resource (`sys::process::Child`, a tokio
child handle), modelled at the interface boundary the supervisor uses:
what `try_wait` currently reports, what `start_kill` would return, and
whether a kill has been requested. -/
structure Child where
  tryWaitResult : Except IoError (Option ExitStatus)
  killResult : Except IoError Unit
  killRequested : Bool
deriving DecidableEq, Repr

/-- `Child::start_kill`: requests termination, returning the OS result and
the handle with the request recorded. -/
def Child.start_kill (c : Child) : Except IoError Unit × Child :=
  (c.killResult, { c with killRequested := true })

/-- `ChildProcess`: optional pid plus the owned child handle. -/
structure ChildProcess where
  pid : Option Nat
  child : Child
deriving DecidableEq, Repr

/-- `ChildProcess::new`. -/
def ChildProcess.new (pid : Option Nat) (child : Child) : ChildProcess :=
  ⟨pid, child⟩

/-- `ProcessWaitResult`. -/
inductive ProcessWaitResult where
  | completed (output : Output)
  | stopped
  | cancelled
deriving DecidableEq, Repr

/-- `output_from_status`: wraps an exit status with empty stdout/stderr. -/
def output_from_status (status : ExitStatus) : Output :=
  { status := status, stdout := [], stderr := [] }

/-- `ChildProcess::kill`: `let _ = self.child.start_kill();` — requests
termination and discards the result. -/
def ChildProcess.kill (cp : ChildProcess) : ChildProcess :=
  let r := cp.child.start_kill
  { cp with child := r.2 }

/-- `ChildProcess::poll`: non-blocking map of `child.try_wait()`. -/
def ChildProcess.poll (cp : ChildProcess) : Option (Except Error Output) :=
  match cp.child.tryWaitResult with
  | .ok (some status) => some (.ok (output_from_status status))
  | .ok none => none
  | .error err => some (.error (.os err))

/-- The externally owned cancellation token (`tokio_util`), observed as a
monotonic fired flag. -/
structure CancellationToken where
  fired : Bool
deriving DecidableEq, Repr

/-- The future awaited for the `cancelled` select branch: for
`Some(token)` it is `token.cancelled()` (ready exactly when the token has
fired), for `None` it is `std::future::pending()`. -/
def cancelledFuture : Option CancellationToken → Future Unit
  | some token => if token.fired then .ready () else .never
  | none => future_pending Unit

/-- One resolution of the `tokio::select!` inside the wait loop: which
branch fired, with the exit branch carrying the resolved status. -/
inductive SelectEvent where
  | exit (status : Except IoError ExitStatus)
  | cancel
  | tstp
  | chld
  | ctrlc
deriving DecidableEq, Repr

/-- Whether a select branch can fire at all, given the cancellation-token
argument: the exit branch is external and unconstrained; every other
branch fires only if the future it awaits can resolve. -/
def SelectEvent.enabled (token : Option CancellationToken) :
    SelectEvent → Bool
  | .exit _ => true
  | .cancel => (cancelledFuture token).resolves
  | .tstp =>
      match tstp_signal_listener with
      | .ok s => s.recv.resolves
      | .error _ => false
  | .chld =>
      match chld_signal_listener with
      | .ok s => s.recv.resolves
      | .error _ => false
  | .ctrlc => await_ctrl_c.resolves

/-- Outcome of a run of the wait loop on a finite event trace: the
returned value (`none` when the loop is still suspended after the trace),
the supervisor state, and how many times `self.child.wait()` was invoked
to create a fresh exit-wait future (the source creates one inside the
loop body, once per iteration whose select resolved). -/
structure WaitOutcome where
  result : Option (Except Error ProcessWaitResult)
  proc : ChildProcess
  exitFutureCreations : Nat
deriving DecidableEq, Repr

/-- The body of `ChildProcess::wait`'s `loop`, run against a finite trace
of select resolutions: an exit resolution returns `Completed` (or
propagates the OS error); a cancellation resolution kills the child and
returns `Cancelled`; a SIGTSTP resolution returns `Stopped`; a SIGCHLD
resolution returns `Stopped` when `poll_for_stopped_children()` reports a
stopped child, propagates its error, and otherwise continues; a Ctrl-C
resolution continues. -/
def waitLoop (cp : ChildProcess) : List SelectEvent → WaitOutcome
  | [] => ⟨none, cp, 0⟩
  | ev :: rest =>
    match ev with
    | .exit (.ok status) =>
        ⟨some (.ok (.completed (output_from_status status))), cp, 1⟩
    | .exit (.error e) => ⟨some (.error (.os e)), cp, 1⟩
    | .cancel => ⟨some (.ok .cancelled), cp.kill, 1⟩
    | .tstp => ⟨some (.ok .stopped), cp, 1⟩
    | .chld =>
        match poll_for_stopped_children with
        | .error e => ⟨some (.error e), cp, 1⟩
        | .ok true => ⟨some (.ok .stopped), cp, 1⟩
        | .ok false =>
            let out := waitLoop cp rest
            ⟨out.result, out.proc, out.exitFutureCreations + 1⟩
    | .ctrlc =>
        let out := waitLoop cp rest
        ⟨out.result, out.proc, out.exitFutureCreations + 1⟩

/-- `ChildProcess::wait`: acquires the two signal listeners (propagating
their construction errors), pins the cancellation future once, and runs
the select loop. The `_cancel_token` argument constrains which events can
occur (via `SelectEvent.enabled`); the loop itself never reads it. -/
def ChildProcess.wait (cp : ChildProcess) (cancel_token : Option CancellationToken)
    (events : List SelectEvent) : WaitOutcome :=
  match tstp_signal_listener with
  | .error e => ⟨some (.error e), cp, 0⟩
  | .ok _sigtstp =>
    match chld_signal_listener with
    | .error e => ⟨some (.error e), cp, 0⟩
    | .ok _sigchld =>
      let _cancelled := cancelledFuture cancel_token
      waitLoop cp events

/-- One supervisor operation, for stating frame properties over arbitrary
call sequences. -/
inductive SupervisorOp where
  | wait (token : Option CancellationToken) (events : List SelectEvent)
  | poll
  | kill

/-- The supervisor state reached after one operation: `wait` leaves the
state produced by the loop, `poll` only reads, `kill` records the
termination request. -/
def applyOp (cp : ChildProcess) : SupervisorOp → ChildProcess
  | .wait token events => (cp.wait token events).proc
  | .poll => cp
  | .kill => cp.kill

/-- The supervisor state after a sequence of operations. -/
def applyOps (cp : ChildProcess) (ops : List SupervisorOp) : ChildProcess :=
  ops.foldl applyOp cp

/-! ## Helper lemmas -/

/-- With no cancellation token, on the degraded platform every select
branch other than the exit branch awaits a future that never resolves, so
the only events that can occur are exit resolutions. -/
theorem enabled_none_exit {e : SelectEvent}
    (h : SelectEvent.enabled none e = true) : ∃ r, e = SelectEvent.exit r := by
  cases e with
  | exit r => exact ⟨r, rfl⟩
  | cancel => exact absurd h (by decide)
  | tstp => exact absurd h (by decide)
  | chld => exact absurd h (by decide)
  | ctrlc => exact absurd h (by decide)

/-- A run of the wait loop over a trace beginning with continue-only
events (Ctrl-C resolutions and SIGCHLD resolutions, the latter continuing
because the stub reports no stopped children) behaves like the run over
the remainder, with one extra exit-wait future created per skipped
iteration. -/
theorem waitLoop_noise (cp : ChildProcess) (noise rest : List SelectEvent)
    (h : ∀ e ∈ noise, e = SelectEvent.ctrlc ∨ e = SelectEvent.chld) :
    waitLoop cp (noise ++ rest) =
      ⟨(waitLoop cp rest).result, (waitLoop cp rest).proc,
        (waitLoop cp rest).exitFutureCreations + noise.length⟩ := by
  induction noise with
  | nil => simp
  | cons e tl ih =>
    have htl : ∀ x ∈ tl, x = SelectEvent.ctrlc ∨ x = SelectEvent.chld :=
      fun x hx => h x (List.mem_cons_of_mem _ hx)
    rcases h e (List.mem_cons_self e tl) with he | he <;> subst he <;>
      simp [waitLoop, poll_for_stopped_children, ih htl, Nat.add_assoc,
        Nat.add_comm]

/-- The wait loop never changes the stored pid. -/
theorem waitLoop_pid (cp : ChildProcess) (events : List SelectEvent) :
    (waitLoop cp events).proc.pid = cp.pid := by
  induction events with
  | nil => rfl
  | cons e rest ih =>
    cases e with
    | exit r => cases r <;> rfl
    | cancel => rfl
    | tstp => rfl
    | chld => simpa [waitLoop, poll_for_stopped_children] using ih
    | ctrlc => simpa [waitLoop] using ih

/-- `wait` never changes the stored pid. -/
theorem wait_pid (cp : ChildProcess) (token : Option CancellationToken)
    (events : List SelectEvent) :
    (cp.wait token events).proc.pid = cp.pid :=
  waitLoop_pid cp events

/-- No single supervisor operation changes the stored pid. -/
theorem applyOp_pid (cp : ChildProcess) (op : SupervisorOp) :
    (applyOp cp op).pid = cp.pid := by
  cases op with
  | wait token events => exact wait_pid cp token events
  | poll => rfl
  | kill => rfl

/-- No sequence of supervisor operations changes the stored pid. -/
theorem applyOps_pid (ops : List SupervisorOp) :
    ∀ cp : ChildProcess, (applyOps cp ops).pid = cp.pid := by
  induction ops with
  | nil => intro cp; rfl
  | cons op tl ih =>
    intro cp
    have h1 : applyOps cp (op :: tl) = applyOps (applyOp cp op) tl := rfl
    rw [h1, ih (applyOp cp op), applyOp_pid]

/-! ## Claim theorems -/

/-- C1: for every child handle, when only events that can actually occur
with no cancellation token are delivered (on the platform in the sources,
only exit resolutions), `wait(None)` returns `Completed` wrapping the
resolved exit status with empty captured stdout and stderr once the
process exits, and never returns `Stopped` or `Cancelled`. -/
theorem wait_none_completed (cp : ChildProcess) (events : List SelectEvent)
    (henabled : ∀ e ∈ events, SelectEvent.enabled none e = true) :
    (∀ st, events.head? = some (SelectEvent.exit (.ok st)) →
        (cp.wait none events).result =
          some (.ok (.completed { status := st, stdout := [], stderr := [] }))) ∧
    (cp.wait none events).result ≠ some (.ok .stopped) ∧
    (cp.wait none events).result ≠ some (.ok .cancelled) := by
  refine ⟨?_, ?_, ?_⟩
  · intro st hhead
    cases events with
    | nil => exact absurd hhead (by simp)
    | cons e rest =>
      have he : e = SelectEvent.exit (.ok st) := by simpa using hhead
      subst he
      rfl
  · cases events with
    | nil => simp [ChildProcess.wait, waitLoop, tstp_signal_listener,
        chld_signal_listener]
    | cons e rest =>
      obtain ⟨r, rfl⟩ := enabled_none_exit (henabled e (List.mem_cons_self e rest))
      cases r <;> simp [ChildProcess.wait, waitLoop, tstp_signal_listener,
        chld_signal_listener]
  · cases events with
    | nil => simp [ChildProcess.wait, waitLoop, tstp_signal_listener,
        chld_signal_listener]
    | cons e rest =>
      obtain ⟨r, rfl⟩ := enabled_none_exit (henabled e (List.mem_cons_self e rest))
      cases r <;> simp [ChildProcess.wait, waitLoop, tstp_signal_listener,
        chld_signal_listener]

/-- C1 witness: a concrete handle whose process exits with status 0. -/
theorem wait_none_completed_witness :
    ((ChildProcess.new (some 3) ⟨.ok none, .ok (), false⟩).wait none
        [SelectEvent.exit (.ok ⟨0⟩)]).result =
      some (.ok (.completed { status := ⟨0⟩, stdout := [], stderr := [] })) :=
  (wait_none_completed (ChildProcess.new (some 3) ⟨.ok none, .ok (), false⟩)
      [SelectEvent.exit (.ok ⟨0⟩)] (by decide)).1 ⟨0⟩ rfl

/-- C2: when the cancellation source fires before the child's natural exit
(after any number of continue-only iterations), `wait(Some(token))`
records a termination request on the child and returns `Cancelled` — for
every handle, hence regardless of whether the underlying termination
request (`start_kill`) would succeed or fail; its result is discarded. -/
theorem wait_cancelled (cp : ChildProcess) (token : CancellationToken)
    (noise rest : List SelectEvent)
    (hnoise : ∀ e ∈ noise, e = SelectEvent.ctrlc ∨ e = SelectEvent.chld) :
    (cp.wait (some token) (noise ++ SelectEvent.cancel :: rest)).result =
        some (.ok .cancelled) ∧
    (cp.wait (some token)
        (noise ++ SelectEvent.cancel :: rest)).proc.child.killRequested = true := by
  have hw : cp.wait (some token) (noise ++ SelectEvent.cancel :: rest) =
      waitLoop cp (noise ++ SelectEvent.cancel :: rest) := rfl
  rw [hw, waitLoop_noise cp noise (SelectEvent.cancel :: rest) hnoise]
  exact ⟨rfl, rfl⟩

/-- C2 witness: one skipped Ctrl-C iteration, then cancellation, on a
child whose `start_kill` would fail with an OS error — the error is
swallowed and the result is still `Cancelled` with the kill requested. -/
theorem wait_cancelled_witness :
    ((ChildProcess.new (some 7) ⟨.ok none, .error ⟨9⟩, false⟩).wait (some ⟨true⟩)
        ([SelectEvent.ctrlc] ++ SelectEvent.cancel :: [])).result =
        some (.ok .cancelled) ∧
    ((ChildProcess.new (some 7) ⟨.ok none, .error ⟨9⟩, false⟩).wait (some ⟨true⟩)
        ([SelectEvent.ctrlc] ++
          SelectEvent.cancel :: [])).proc.child.killRequested = true :=
  wait_cancelled (ChildProcess.new (some 7) ⟨.ok none, .error ⟨9⟩, false⟩)
    ⟨true⟩ [SelectEvent.ctrlc] [] (by decide)

/-- C3 counterexample: the source creates the exit-wait future inside the
loop body (`let wait_future = self.child.wait();` within `loop`), so a run
whose first select resolution merely continues creates two exit-wait
futures, refuting "kept alive across loop iterations rather than
recreated per iteration" (which would bound creations by one). -/
theorem wait_recreates_exit_future :
    ¬ ((ChildProcess.new (some 1) ⟨.ok none, .ok (), false⟩).wait none
        [SelectEvent.ctrlc, SelectEvent.exit (.ok ⟨0⟩)]).exitFutureCreations ≤ 1 := by
  decide

/-- C3 (amended): the wait loop creates one fresh exit-wait future per
iteration (`noise.length + 1` creations after `noise.length` skipped
iterations), and an exit resolving after any number of skipped iterations
is still reported as `Completed` — the exit is not missed, because each
iteration constructs a new exit-wait future over the persistent child
state rather than relying on a single long-lived future. -/
theorem wait_exit_future_per_iteration (cp : ChildProcess)
    (token : Option CancellationToken) (noise : List SelectEvent)
    (st : ExitStatus) (rest : List SelectEvent)
    (hnoise : ∀ e ∈ noise, e = SelectEvent.ctrlc ∨ e = SelectEvent.chld) :
    (cp.wait token (noise ++ SelectEvent.exit (.ok st) :: rest)).result =
        some (.ok (.completed (output_from_status st))) ∧
    (cp.wait token
        (noise ++ SelectEvent.exit (.ok st) :: rest)).exitFutureCreations =
      noise.length + 1 := by
  have hw : cp.wait token (noise ++ SelectEvent.exit (.ok st) :: rest) =
      waitLoop cp (noise ++ SelectEvent.exit (.ok st) :: rest) := rfl
  rw [hw, waitLoop_noise cp noise (SelectEvent.exit (.ok st) :: rest) hnoise]
  exact ⟨rfl, Nat.add_comm 1 noise.length⟩

/-- C3 (amended) witness: two skipped iterations, then an exit. -/
theorem wait_exit_future_per_iteration_witness :
    ((ChildProcess.new (some 1) ⟨.ok none, .ok (), false⟩).wait none
        ([SelectEvent.ctrlc, SelectEvent.chld] ++
          SelectEvent.exit (.ok ⟨0⟩) :: [])).result =
        some (.ok (.completed (output_from_status ⟨0⟩))) ∧
    ((ChildProcess.new (some 1) ⟨.ok none, .ok (), false⟩).wait none
        ([SelectEvent.ctrlc, SelectEvent.chld] ++
          SelectEvent.exit (.ok ⟨0⟩) :: [])).exitFutureCreations =
      [SelectEvent.ctrlc, SelectEvent.chld].length + 1 :=
  wait_exit_future_per_iteration (ChildProcess.new (some 1) ⟨.ok none, .ok (), false⟩)
    none [SelectEvent.ctrlc, SelectEvent.chld] ⟨0⟩ [] (by decide)

/-- C4 counterexample: on the Windows configuration, `kill_process` with
`Interrupt` — a signal outside the claimed terminate/kill subset — against
an openable, terminable process succeeds (it performs the forced
termination) instead of failing with `NotSupportedOnThisPlatform`. -/
theorem kill_process_interrupt_delivered :
    kill_process_windows ⟨fun _ => true, fun _ => true⟩ 42
        (TrapSignal.signal .interrupt) = .ok () ∧
    kill_process_windows ⟨fun _ => true, fun _ => true⟩ 42
        (TrapSignal.signal .interrupt) ≠
      .error (.notSupportedOnThisPlatform "killing process") := by
  exact ⟨rfl, by decide⟩

/-- C4 (amended): on the degraded Windows configuration, `kill_process`
ignores its signal argument and issues the OS forced-termination for
every signal (Interrupt included); it fails with `FailedToSendSignal`
when the process cannot be opened or when termination fails, and never
returns `NotSupportedOnThisPlatform`. On the degraded non-Windows
configuration, every call fails with
`NotSupportedOnThisPlatform("killing process")`. -/
theorem kill_process_degraded (os : WinOs) (pid : Nat) (s : TrapSignal) :
    (os.openProcess pid = false →
        kill_process_windows os pid s = .error .failedToSendSignal) ∧
    (os.openProcess pid = true → os.terminateProcess pid = true →
        kill_process_windows os pid s = .ok ()) ∧
    (os.openProcess pid = true → os.terminateProcess pid = false →
        kill_process_windows os pid s = .error .failedToSendSignal) ∧
    (∀ op, kill_process_windows os pid s ≠
        .error (.notSupportedOnThisPlatform op)) ∧
    kill_process_nonwindows pid s =
      .error (.notSupportedOnThisPlatform "killing process") := by
  refine ⟨?_, ?_, ?_, ?_, rfl⟩
  · intro h1; simp [kill_process_windows, h1]
  · intro h1 h2; simp [kill_process_windows, h1, h2]
  · intro h1 h2; simp [kill_process_windows, h1, h2]
  · intro op
    by_cases h1 : os.openProcess pid = true
    · by_cases h2 : os.terminateProcess pid = true <;>
        simp [kill_process_windows, h1, h2]
    · simp [kill_process_windows, h1]

/-- C4 (amended) witness: an inaccessible process yields
`FailedToSendSignal`, not `NotSupportedOnThisPlatform`. -/
theorem kill_process_degraded_witness :
    kill_process_windows ⟨fun _ => false, fun _ => true⟩ 5
        (TrapSignal.signal .terminate) = .error .failedToSendSignal :=
  (kill_process_degraded ⟨fun _ => false, fun _ => true⟩ 5
      (TrapSignal.signal .terminate)).1 rfl

/-- C5: `poll` is a pure, non-suspending map of the child's current
`try_wait` report: `None` while the process has not exited, `Some(Ok(..))`
wrapping the exit status (with empty captured output) once it has — the
same status a `wait` whose exit branch resolves with that status reports
inside `Completed` — and `Some(Err(..))` when querying failed. -/
theorem poll_spec (cp : ChildProcess) :
    (cp.child.tryWaitResult = .ok none → cp.poll = none) ∧
    (∀ st, cp.child.tryWaitResult = .ok (some st) →
        cp.poll = some (.ok (output_from_status st)) ∧
        ∀ token, (cp.wait token [SelectEvent.exit (.ok st)]).result =
            some (.ok (.completed (output_from_status st)))) ∧
    (∀ e, cp.child.tryWaitResult = .error e →
        cp.poll = some (.error (.os e))) := by
  refine ⟨?_, ?_, ?_⟩
  · intro h; simp [ChildProcess.poll, h]
  · intro st h
    exact ⟨by simp [ChildProcess.poll, h], fun token => rfl⟩
  · intro e h; simp [ChildProcess.poll, h]

/-- C5 witness: a child that has exited with status 0. -/
theorem poll_spec_witness :
    (ChildProcess.new (some 2) ⟨.ok (some ⟨0⟩), .ok (), false⟩).poll =
        some (.ok (output_from_status ⟨0⟩)) ∧
    ((ChildProcess.new (some 2) ⟨.ok (some ⟨0⟩), .ok (), false⟩).wait none
        [SelectEvent.exit (.ok ⟨0⟩)]).result =
      some (.ok (.completed (output_from_status ⟨0⟩))) := by
  have h := (poll_spec (ChildProcess.new (some 2) ⟨.ok (some ⟨0⟩), .ok (), false⟩)).2.1
    ⟨0⟩ rfl
  exact ⟨h.1, h.2 none⟩

/-- C6: parsing round-trips the canonical name of every member of the
enumerable signal set, and accepts each canonical name case-insensitively
(any input whose ASCII-uppercasing equals the canonical name) with or
without the SIG prefix, mapping every such variant to the same member; on
the empty (non-Windows stub) configuration the round-trip holds vacuously
over the empty iterator. -/
theorem signal_parse_roundtrip :
    (∀ s ∈ WinStub.Signal.iterator,
        WinStub.Signal.from_str (WinStub.Signal.as_str s) = .ok s) ∧
    (∀ input : String,
        ((WinStub.toAsciiUppercase input = "TERM" ∨
          WinStub.toAsciiUppercase input = "SIGTERM") →
            WinStub.Signal.from_str input = .ok .terminate) ∧
        ((WinStub.toAsciiUppercase input = "KILL" ∨
          WinStub.toAsciiUppercase input = "SIGKILL") →
            WinStub.Signal.from_str input = .ok .kill) ∧
        ((WinStub.toAsciiUppercase input = "INT" ∨
          WinStub.toAsciiUppercase input = "SIGINT") →
            WinStub.Signal.from_str input = .ok .interrupt)) ∧
    (∀ s ∈ PosixStub.Signal.iterator,
        PosixStub.Signal.from_str (PosixStub.Signal.as_str s) = .ok s) := by
  refine ⟨by decide, ?_, by intro s hs; cases s⟩
  intro input
  refine ⟨?_, ?_, ?_⟩ <;> intro h <;> rcases h with h | h <;>
    simp [WinStub.Signal.from_str, h]

/-- C6 witness: "sigTerm" (mixed case, with the SIG prefix) parses to the
same member whose canonical name is "TERM", and the canonical name itself
round-trips. -/
theorem signal_parse_roundtrip_witness :
    WinStub.Signal.from_str "sigTerm" = .ok .terminate ∧
    WinStub.Signal.from_str (WinStub.Signal.as_str .terminate) = .ok .terminate :=
  ⟨(signal_parse_roundtrip.2.1 "sigTerm").1 (Or.inr (by decide)),
   signal_parse_roundtrip.1 .terminate (by decide)⟩

/-- C7: any input whose ASCII-uppercasing is none of the six recognized
forms fails with `InvalidSignal` carrying the original (uncased) string on
the Windows configuration; on the empty non-Windows configuration every
input fails the same way, and conversion from a raw numeric value fails
with `InvalidSignal` for every integer (as it does on Windows too, the
stub `TryFrom` being shared). -/
theorem signal_parse_invalid :
    (∀ input : String,
        WinStub.toAsciiUppercase input ∉
          (["TERM", "SIGTERM", "KILL", "SIGKILL", "INT", "SIGINT"] :
            List String) →
        WinStub.Signal.from_str input = .error (.invalidSignal input)) ∧
    (∀ input : String,
        PosixStub.Signal.from_str input = .error (.invalidSignal input)) ∧
    (∀ v : Int, PosixStub.Signal.try_from v =
        .error (.invalidSignal (toString v))) ∧
    (∀ v : Int, WinStub.Signal.try_from v =
        .error (.invalidSignal (toString v))) := by
  refine ⟨?_, fun input => rfl, fun v => rfl, fun v => rfl⟩
  intro input h
  simp only [List.mem_cons, List.not_mem_nil, or_false, not_or] at h
  obtain ⟨h1, h2, h3, h4, h5, h6⟩ := h
  simp [WinStub.Signal.from_str, h1, h2, h3, h4, h5, h6]

/-- C7 witness: "bogus" fails with `InvalidSignal("bogus")` on the Windows
configuration, and numeric conversion fails on the empty configuration. -/
theorem signal_parse_invalid_witness :
    WinStub.Signal.from_str "bogus" = .error (.invalidSignal "bogus") ∧
    PosixStub.Signal.try_from 15 = .error (.invalidSignal "15") :=
  ⟨signal_parse_invalid.1 "bogus" (by decide),
   signal_parse_invalid.2.2.1 15⟩

/-- C8: on the degraded platform, listener construction always succeeds,
the returned handles' `recv` never resolves, `await_ctrl_c` never
resolves, and `poll_for_stopped_children` always reports `Ok(false)`. -/
theorem degraded_listeners_inert :
    tstp_signal_listener = .ok FakeSignal.new ∧
    chld_signal_listener = .ok FakeSignal.new ∧
    (∀ s : FakeSignal, s.recv.resolves = false) ∧
    await_ctrl_c.resolves = false ∧
    poll_for_stopped_children = .ok false :=
  ⟨rfl, rfl, fun _ => rfl, rfl, rfl⟩

/-- C9: the stored process identifier is exactly the one supplied at
construction, after any sequence of `wait`, `poll`, and `kill` calls. -/
theorem pid_frame (pid : Option Nat) (child : Child) (ops : List SupervisorOp) :
    (applyOps (ChildProcess.new pid child) ops).pid = pid :=
  applyOps_pid ops (ChildProcess.new pid child)

/-- C10: on the Windows configuration, `kill_process` never reads its
signal argument: for a fixed OS state and process identifier, any two
signal values produce the identical result (and the identical
forced-termination action, the function being pure in the model). -/
theorem kill_process_signal_independent (os : WinOs) (pid : Nat)
    (s₁ s₂ : TrapSignal) :
    kill_process_windows os pid s₁ = kill_process_windows os pid s₂ := rfl

end BrushCore
